import Mathlib

/-!
Shallow embedding of `personal_capital_api/personal_capital.py` (the
`PersonalCapital` class): the authorization state, the response-envelope
classification done by `api_request`, the login state machine, the cookie
cache, and the data accessors.  Network traffic is modelled by an oracle
mapping each outgoing request to a raw response; every operation returns the
updated client state, the list of network calls it issued, and either a value
or the Python exception it raises.
-/

/-- One entry of the `errors` array of a response envelope header
(`spHeader.errors[i]`); only the `code` field is inspected by the code, and it
may be absent (`.get('code', None)`). -/
structure SpError where
  code : Option Int
deriving DecidableEq

/-- The `spHeader` block of a response envelope.  Every field the code reads
with `.get` is optional, mirroring a JSON object that may omit keys. -/
structure SpHeader where
  success : Option Bool
  errors : Option (List SpError)
  csrf : Option String
  authLevel : Option String
  spHeaderVersion : Option Int
deriving DecidableEq

/-- The `spData` payload; the code only ever projects the `transactions` key
out of it (`resp['spData']['transactions']`), so other content is opaque. -/
structure SpData where
  transactions : Option (List String)
deriving DecidableEq

/-- A parsed JSON response envelope `{spHeader: ..., spData: ...}`; both keys
may be absent. -/
structure Envelope where
  spHeader : Option SpHeader
  spData : Option SpData
deriving DecidableEq

/-- A raw HTTP response: status code, `content-type` header value, the body
as a parsed envelope (`none` models a body that is not valid JSON, on which
`json.loads` raises), and the cookies the response sets on the session. -/
structure RawResponse where
  statusCode : Nat
  contentType : String
  body : Option Envelope
  setCookies : List (String × String)
deriving DecidableEq

/-- An outgoing API request: method, full URL, and the form fields.  A field
value of `none` models a Python `None` value in the data dict (the `csrf`
field before any token is known). -/
structure Request where
  method : String
  url : String
  data : List (String × Option String)
deriving DecidableEq

/-- A network call issued by the client: either the plain landing-page GET
(`session.get(_ROOT_URL)` in `login`) or an API request. -/
inductive NetCall where
  | pageGet : NetCall
  | api : Request → NetCall
deriving DecidableEq

/-- The mutable state of a `PersonalCapital` instance: `_csrf`,
`_last_server_change_id`, `_email`, `_use_cookies_cache`, and the session
cookie jar. -/
structure PCState where
  csrf : Option String
  last_server_change_id : Int
  email : Option String
  use_cookies_cache : Bool
  cookies : List (String × String)
deriving DecidableEq

/-- The Python exceptions the embedded code can raise.  `cls` below gives the
Python class of each; the two `RuntimeError`s of `api_request` (transport
failure at line 50 and envelope failure at line 58) share the class
`RuntimeError`, while `PersonalCapitalSessionExpiredException` is its own
class. -/
inductive PyExc where
  | transportError : Nat → String → PyExc
  | jsonDecodeError : PyExc
  | sessionExpired : SpHeader → PyExc
  | apiError : SpHeader → PyExc
  | indexError : PyExc
  | keyError : String → PyExc
  | attributeError : PyExc
  | valueError : String → PyExc
  | pickleError : PyExc
deriving DecidableEq

/-- The Python class name of each raised exception. -/
def PyExc.cls : PyExc → String
  | .transportError _ _ => "RuntimeError"
  | .jsonDecodeError => "JSONDecodeError"
  | .sessionExpired _ => "PersonalCapitalSessionExpiredException"
  | .apiError _ => "RuntimeError"
  | .indexError => "IndexError"
  | .keyError _ => "KeyError"
  | .attributeError => "AttributeError"
  | .valueError _ => "ValueError"
  | .pickleError => "UnpicklingError"

/-- The network environment: the landing page (HTML text and cookies it sets)
and a response for every API request. -/
structure Oracle where
  landingHtml : String
  landingSetCookies : List (String × String)
  respond : Request → RawResponse

/-- Result of one client operation: final state, network calls issued in
order, and the returned value or raised exception. -/
abbrev Run (α : Type) := PCState × List NetCall × Except PyExc α

/-- Set (insert or overwrite) one cookie in the jar, as
`requests.cookies` does when a response carries `Set-Cookie`. -/
def setCookie (cs : List (String × String)) (k v : String) : List (String × String) :=
  if cs.any (fun p => p.1 = k) then
    cs.map (fun p => if p.1 = k then (k, v) else p)
  else
    cs ++ [(k, v)]

/-- Merge the cookies set by a response into the session jar. -/
def updateCookies (cs newCookies : List (String × String)) : List (String × String) :=
  newCookies.foldl (fun acc p => setCookie acc p.1 p.2) cs

/-- List-level prefix test (kernel-computable `startsWith`). -/
def startsWithChars : List Char → List Char → Bool
  | _, [] => true
  | [], _ :: _ => false
  | c :: cs, p :: ps => c = p && startsWithChars cs ps

/-- `re.match('text/json|application/json', contentType)`: the pattern is
anchored at the start, so it tests whether the header starts with either
alternative. -/
def isJsonContentType (ct : String) : Bool :=
  startsWithChars ct.data "text/json".data
    || startsWithChars ct.data "application/json".data

def rootUrl : String := "https://home.personalcapital.com"

/-- `path.lstrip('/')`: drop every leading slash. -/
def lstripSlashes (p : String) : String :=
  String.mk (p.data.dropWhile (fun c => c = '/'))

/-- Build the request `api_request` issues: URL joined onto the root, and the
caller data extended with `csrf`, `apiClient` and `lastServerChangeId`
(lines 40-43 of the source). -/
def mkRequest (s : PCState) (method path : String)
    (data : List (String × Option String)) : Request :=
  { method := method
    url := rootUrl ++ "/" ++ lstripSlashes path
    data := data ++ [("csrf", s.csrf), ("apiClient", some "WEB"),
                     ("lastServerChangeId", some (toString s.last_server_change_id))] }

/-- The state after merging a response's cookies into the session. -/
def cookieMergedState (s : PCState) (resp : RawResponse) : PCState :=
  { s with cookies := updateCookies s.cookies resp.setCookies }

/-- Response classification of `api_request` (lines 44-60): transport check
(status must be 200 and content type JSON), JSON parse, then the envelope
check `spHeader.success is False`, with error code 201 clearing the csrf and
raising the session-expired exception, any other first error code raising a
plain `RuntimeError`.  Faithful corner cases: a missing `spHeader` still
fails the success check and then raises `KeyError` from the f-string
`json_res["spHeader"]`; `errors: []` raises `IndexError` from `[...][0]`;
a missing `errors` key defaults to `[{}]` whose first code is `None`. -/
def api_request_core (s : PCState) (resp : RawResponse) :
    PCState × Except PyExc Envelope :=
  let s1 := cookieMergedState s resp
  if resp.statusCode ≠ 200 || !(isJsonContentType resp.contentType) then
    (s1, .error (.transportError resp.statusCode resp.contentType))
  else
    match resp.body with
    | none => (s1, .error .jsonDecodeError)
    | some env =>
      if (env.spHeader.bind SpHeader.success).getD false = false then
        match env.spHeader with
        | none => (s1, .error (.keyError "spHeader"))
        | some h =>
          match h.errors with
          | none => (s1, .error (.apiError h))
          | some [] => (s1, .error .indexError)
          | some (e :: _) =>
            if e.code = some 201 then
              ({ s1 with csrf := none }, .error (.sessionExpired h))
            else
              (s1, .error (.apiError h))
      else
        (s1, .ok env)

/-- Full `api_request`: build the request, send it through the oracle, and
classify the response. -/
def api_request (o : Oracle) (s : PCState) (method path : String)
    (data : List (String × Option String)) : Run Envelope :=
  let req := mkRequest s method path data
  let res := api_request_core s (o.respond req)
  (res.1, [NetCall.api req], res.2)

/-- `get_accounts` (lines 85-88): post to the accounts endpoint and return
`resp['spData']` (a missing key raises `KeyError`). -/
def get_accounts (o : Oracle) (s : PCState) : Run SpData :=
  match api_request o s "post" "/api/newaccount/getAccounts2" [] with
  | (s1, t, .error e) => (s1, t, .error e)
  | (s1, t, .ok env) =>
    match env.spData with
    | some d => (s1, t, .ok d)
    | none => (s1, t, .error (.keyError "spData"))

/-- `get_transactions` (lines 78-83): post the date window and return
`resp['spData']['transactions']`. -/
def get_transactions (o : Oracle) (s : PCState) (start_date end_date : String) :
    Run (List String) :=
  match api_request o s "post" "/api/transaction/getUserTransactions"
      [("startDate", some start_date), ("endDate", some end_date)] with
  | (s1, t, .error e) => (s1, t, .error e)
  | (s1, t, .ok env) =>
    match env.spData with
    | none => (s1, t, .error (.keyError "spData"))
    | some d =>
      match d.transactions with
      | none => (s1, t, .error (.keyError "transactions"))
      | some ts => (s1, t, .ok ts)

/-- The default arguments of `get_transactions`
(`start_date='2007-01-01', end_date='2030-01-01'`). -/
def default_start_date : String := "2007-01-01"

def default_end_date : String := "2030-01-01"

/-- `get_transactions` called without date arguments. -/
def get_transactions_default (o : Oracle) (s : PCState) : Run (List String) :=
  get_transactions o s default_start_date default_end_date

/-- `is_logged_in` (lines 62-70): false with no network call when no csrf
token is held; otherwise probe `get_accounts`, turning only the
session-expired exception into `false`. -/
def is_logged_in (o : Oracle) (s : PCState) : Run Bool :=
  match s.csrf with
  | none => (s, [], .ok false)
  | some _ =>
    match get_accounts o s with
    | (s1, t, .ok _) => (s1, t, .ok true)
    | (s1, t, .error (.sessionExpired _)) => (s1, t, .ok false)
    | (s1, t, .error e) => (s1, t, .error e)

/-- `refresh_last_server_change_id` (lines 72-76): query the session and
store `spHeader.SP_HEADER_VERSION` when it is present and truthy (Python
`if last_server_change_id:` is false for `None` and for `0`). -/
def refresh_last_server_change_id (o : Oracle) (s : PCState) : Run Unit :=
  match api_request o s "post" "api/login/querySession" [] with
  | (s1, t, .error e) => (s1, t, .error e)
  | (s1, t, .ok env) =>
    match env.spHeader.bind SpHeader.spHeaderVersion with
    | some v =>
      if v ≠ 0 then ({ s1 with last_server_change_id := v }, t, .ok ())
      else (s1, t, .ok ())
    | none => (s1, t, .ok ())

/-- On-disk cookie cache record `{version, cookies, email}` (pickled at
lines 276-280). -/
structure CachedRecord where
  version : Int
  cookies : List (String × String)
  email : Option String
deriving DecidableEq

/-- State of the cache file: absent, present but failing to deserialize
(`pickle.load` raises), or a well-formed record. -/
inductive CacheDisk where
  | absent : CacheDisk
  | unreadable : CacheDisk
  | record : CachedRecord → CacheDisk
deriving DecidableEq

def cache_version : Int := 1

/-- `_load_cookies_from_cache` (lines 260-267): nothing when the file is
absent; `pickle.load` failures propagate (there is no try/except); a record
whose version differs from `_CACHE_VERSION` falls through to an implicit
`None`. -/
def load_cookies_from_cache : CacheDisk → Except PyExc (Option (List (String × String)))
  | .absent => .ok none
  | .unreadable => .error .pickleError
  | .record r =>
    if r.version = cache_version then .ok (some r.cookies) else .ok none

/-- `_cache_cookies` (lines 269-280): overwrite the cache file with the
current cookies and email under the current version tag. -/
def cache_cookies (s : PCState) : CacheDisk :=
  .record { version := cache_version, cookies := s.cookies, email := s.email }

/-- `_init_session(cookies)` cookie seeding (lines 282-287): the fresh
session jar is empty and is replaced only when `cookies` is truthy (an empty
jar is falsy, leaving the same empty jar). -/
def init_session_cookies : Option (List (String × String)) → List (String × String)
  | some cs => if cs.isEmpty then [] else cs
  | none => []

/-- `PersonalCapital.__init__` (lines 26-37): csrf starts `None`,
`lastServerChangeId` starts `-1`, cookies are optionally hydrated from the
cache (a cache-load exception propagates out of the constructor). -/
def init_personal_capital (useCache : Bool) (disk : CacheDisk) :
    Except PyExc PCState :=
  match (if useCache then load_cookies_from_cache disk else .ok none) with
  | .error e => .error e
  | .ok cookies =>
    .ok { csrf := none, last_server_change_id := -1, email := none,
          use_cookies_cache := useCache,
          cookies := init_session_cookies cookies }

/-- The single-quote character of the csrf regex. -/
def squote : Char := Char.ofNat 39

/-- Characters matched by the `[-a-z0-9]` class of the csrf pattern. -/
def isTokenChar (c : Char) : Bool :=
  c = Char.ofNat 45 || (Char.ofNat 97 ≤ c && c ≤ Char.ofNat 122)
    || (Char.ofNat 48 ≤ c && c ≤ Char.ofNat 57)

/-- Consume `' *'`: zero or more spaces. -/
def dropSpaces : List Char → List Char
  | c :: cs => if c = ' ' then dropSpaces cs else c :: cs
  | [] => []

/-- Greedily consume `[-a-z0-9]*`, returning the run and the rest. -/
def takeToken : List Char → List Char × List Char
  | c :: cs =>
    if isTokenChar c then
      let p := takeToken cs
      (c :: p.1, p.2)
    else ([], c :: cs)
  | [] => ([], [])

/-- Try to match the pattern `csrf *= *'([-a-z0-9]+)'` at the head of the
text, returning the captured group. -/
def matchCsrfAt (cs : List Char) : Option (List Char) :=
  match cs with
  | 'c' :: 's' :: 'r' :: 'f' :: rest =>
    match dropSpaces rest with
    | '=' :: r2 =>
      match dropSpaces r2 with
      | q :: r4 =>
        if q = squote then
          let p := takeToken r4
          match p.2 with
          | q2 :: _ => if q2 = squote && !p.1.isEmpty then some p.1 else none
          | [] => none
        else none
      | [] => none
    | _ => none
  | _ => none

/-- `re.search`: try the pattern at each position, leftmost match wins. -/
def searchCsrf : List Char → Option (List Char)
  | [] => none
  | c :: cs =>
    match matchCsrfAt (c :: cs) with
    | some t => some t
    | none => searchCsrf cs

/-- `re.search("csrf *= *'([-a-z0-9]+)'", html)` and its first group;
`none` models a failed search (on which `.groups()` raises
`AttributeError`). -/
def extractCsrf (html : String) : Option String :=
  (searchCsrf html.data).map (fun l => String.mk l)

/-- The state after `session.get(_ROOT_URL)` in `login` merged the landing
response cookies. -/
def landingCookieState (o : Oracle) (s : PCState) : PCState :=
  { s with cookies := updateCookies s.cookies o.landingSetCookies }

/-- The state right after `login` stored the scraped provisional csrf token
(line 102). -/
def loginLandedState (o : Oracle) (s : PCState) (tok : String) : PCState :=
  { landingCookieState o s with csrf := some tok }

def identifyData (email : String) : List (String × Option String) :=
  [("username", some email)]

/-- The identify-user call of `login` (line 104). -/
def identifyStep (o : Oracle) (s : PCState) (email : String) : Run Envelope :=
  api_request o s "post" "/api/login/identifyUser" (identifyData email)

/-- The state after line 107 replaced the csrf with the one of the identify
response header (`resp.get('spHeader', {}).get('csrf')`). -/
def postIdentifyState (s : PCState) (env : Envelope) : PCState :=
  { s with csrf := env.spHeader.bind SpHeader.csrf }

/-- `'/api/credential/challenge' + ('Sms' if auth_method == 'sms' else 'Email')`. -/
def challengePathOf (auth_method : String) : String :=
  if auth_method = "sms" then "/api/credential/challengeSms"
  else "/api/credential/challengeEmail"

def challengeData (auth_method : String) : List (String × Option String) :=
  [("challengeReason", some "DEVICE_AUTH"), ("challengeMethod", some "OP"),
   ("bindDevice", some "false"),
   ("challengeType",
     some (if auth_method = "sms" then "challengeSMS" else "challengeEmail"))]

/-- The challenge-issue call of `login` (lines 110-115). -/
def challengeStep (o : Oracle) (s : PCState) (auth_method : String) : Run Envelope :=
  api_request o s "post" (challengePathOf auth_method) (challengeData auth_method)

def authenticateCodePathOf (auth_method : String) : String :=
  if auth_method = "sms" then "/api/credential/authenticateSms"
  else "/api/credential/authenticateEmailByCode"

def authenticateCodeData (code : String) : List (String × Option String) :=
  [("challengeReason", some "DEVICE_AUTH"), ("challengeMethod", some "OP"),
   ("bindDevice", some "false"), ("code", some code)]

/-- The code-verification call of `login` (lines 119-124). -/
def authenticateCodeStep (o : Oracle) (s : PCState) (auth_method code : String) :
    Run Envelope :=
  api_request o s "post" (authenticateCodePathOf auth_method)
    (authenticateCodeData code)

def passwordData (password : String) : List (String × Option String) :=
  [("bindDevice", some "true"), ("deviceName", some "API script"),
   ("passwd", some password)]

/-- The password-submission call of `login` (lines 126-127). -/
def passwordStep (o : Oracle) (s : PCState) (password : String) : Run Envelope :=
  api_request o s "post" "/api/credential/authenticatePassword"
    (passwordData password)

/-- The two-factor phase of `login` when the user is not remembered: issue
the challenge, obtain the code (the caller-supplied callback, modelled as the
string it returns), and verify it. -/
def challengePhase (o : Oracle) (s : PCState) (auth_method code : String) :
    Run Unit :=
  match challengeStep o s auth_method with
  | (s5, t5, .error e) => (s5, t5, .error e)
  | (s5, t5, .ok _) =>
    match authenticateCodeStep o s5 auth_method code with
    | (s6, t6, .error e) => (s6, t5 ++ t6, .error e)
    | (s6, t6, .ok _) => (s6, t5 ++ t6, .ok ())

instance exceptDecEq {ε α : Type} [DecidableEq ε] [DecidableEq α] :
    DecidableEq (Except ε α) := fun x y =>
  match x, y with
  | .ok a, .ok b =>
    if h : a = b then .isTrue (by rw [h]) else .isFalse (by simp [h])
  | .error a, .error b =>
    if h : a = b then .isTrue (by rw [h]) else .isFalse (by simp [h])
  | .ok _, .error _ => .isFalse (by simp)
  | .error _, .ok _ => .isFalse (by simp)

/-- Outcome of `login`: final state, final cache file, network calls in
order, and the result. -/
structure LoginResult where
  state : PCState
  cache : CacheDisk
  trace : List NetCall
  result : Except PyExc Unit
deriving DecidableEq

/-- `login` (lines 90-136): validate the auth method before any network
traffic, fetch the landing page and scrape the provisional csrf token (a
failed search raises `AttributeError` from `.groups()` on `None`), identify
the user and adopt the csrf of the response header, run the two-factor phase
unless `authLevel` is `USER_REMEMBERED`, submit the password, record the
email, overwrite the cookie cache when caching is enabled, and finally
refresh the last server change id. -/
def login (o : Oracle) (s : PCState) (cache : CacheDisk)
    (email password auth_method two_factor_code : String) : LoginResult :=
  if ¬(auth_method = "sms" ∨ auth_method = "email") then
    ⟨s, cache, [], .error (.valueError auth_method)⟩
  else
    match extractCsrf o.landingHtml with
    | none =>
      ⟨landingCookieState o s, cache, [NetCall.pageGet], .error .attributeError⟩
    | some tok =>
      match identifyStep o (loginLandedState o s tok) email with
      | (s3, t3, .error e) => ⟨s3, cache, NetCall.pageGet :: t3, .error e⟩
      | (s3, t3, .ok env) =>
        match (if env.spHeader.bind SpHeader.authLevel ≠ some "USER_REMEMBERED" then
                 challengePhase o (postIdentifyState s3 env) auth_method two_factor_code
               else (postIdentifyState s3 env, [], Except.ok ())) with
        | (s6, t6, .error e) => ⟨s6, cache, NetCall.pageGet :: t3 ++ t6, .error e⟩
        | (s6, t6, .ok _) =>
          match passwordStep o s6 password with
          | (s7, t7, .error e) =>
            ⟨s7, cache, NetCall.pageGet :: t3 ++ t6 ++ t7, .error e⟩
          | (s7, t7, .ok _) =>
            let s8 := { s7 with email := some email }
            let cache2 := if s8.use_cookies_cache then cache_cookies s8 else cache
            match refresh_last_server_change_id o s8 with
            | (s9, t9, r) =>
              ⟨s9, cache2, NetCall.pageGet :: t3 ++ t6 ++ t7 ++ t9, r⟩

/-- Pattern classifying a network call as one of the four two-factor
(challenge or code-verification) endpoints. -/
def isChallengeCall : NetCall → Bool
  | .pageGet => false
  | .api req =>
    req.url = rootUrl ++ "/api/credential/challengeSms"
      || req.url = rootUrl ++ "/api/credential/challengeEmail"
      || req.url = rootUrl ++ "/api/credential/authenticateSms"
      || req.url = rootUrl ++ "/api/credential/authenticateEmailByCode"

/-! Concrete fixtures used by witnesses and counterexamples. -/

/-- A landing page containing `csrf = 'abc-123'` (single quotes written via
`squote`). -/
def sampleLandingHtml : String :=
  "<html>var csrf = " ++ squote.toString ++ "abc-123" ++ squote.toString ++ ";</html>"

/-- A fresh state with cookie caching enabled. -/
def s0 : PCState :=
  { csrf := none, last_server_change_id := -1, email := none,
    use_cookies_cache := true, cookies := [] }

/-- A state already holding a csrf token. -/
def sTok : PCState := { s0 with csrf := some "tok-0" }

def okHeader : SpHeader :=
  { success := some true, errors := none, csrf := some "tok-2",
    authLevel := none, spHeaderVersion := none }

def okEnv : Envelope :=
  { spHeader := some okHeader, spData := some { transactions := some [] } }

def okResp : RawResponse :=
  { statusCode := 200, contentType := "application/json", body := some okEnv,
    setCookies := [] }

/-- Oracle answering every request with a successful envelope; the landing
page carries a token and sets one cookie. -/
def sOracle : Oracle :=
  { landingHtml := sampleLandingHtml, landingSetCookies := [("a", "1")],
    respond := fun _ => okResp }

/-- Header of a failed envelope with the session-expired error code 201. -/
def hdr201 : SpHeader :=
  { success := some false, errors := some [{ code := some 201 }], csrf := none,
    authLevel := none, spHeaderVersion := none }

def resp201 : RawResponse :=
  { statusCode := 200, contentType := "application/json",
    body := some { spHeader := some hdr201, spData := none }, setCookies := [] }

/-- Header of a failed envelope with a non-expiry error code 999. -/
def hdr999 : SpHeader :=
  { success := some false, errors := some [{ code := some 999 }], csrf := none,
    authLevel := none, spHeaderVersion := none }

def resp999 : RawResponse :=
  { statusCode := 200, contentType := "application/json",
    body := some { spHeader := some hdr999, spData := none }, setCookies := [] }

/-- A non-JSON transport failure. -/
def htmlResp : RawResponse :=
  { statusCode := 500, contentType := "text/html", body := none, setCookies := [] }

/-- Oracle answering every API request with the expired-session envelope. -/
def expiredOracle : Oracle :=
  { landingHtml := sampleLandingHtml, landingSetCookies := [],
    respond := fun _ => resp201 }

/-- Successful envelope whose header carries no csrf and no auth level. -/
def noCsrfHeader : SpHeader :=
  { success := some true, errors := none, csrf := none, authLevel := none,
    spHeaderVersion := none }

def noCsrfResp : RawResponse :=
  { statusCode := 200, contentType := "application/json",
    body := some { spHeader := some noCsrfHeader, spData := none },
    setCookies := [] }

/-- Oracle on which every call succeeds but the identify response carries no
csrf value in its header. -/
def noCsrfOracle : Oracle :=
  { landingHtml := sampleLandingHtml, landingSetCookies := [],
    respond := fun _ => noCsrfResp }

/-- Oracle whose landing page contains no csrf assignment at all. -/
def noTokenOracle : Oracle :=
  { landingHtml := "<html>nothing to scrape</html>", landingSetCookies := [],
    respond := fun _ => okResp }

/-- Successful envelope whose header reports `authLevel USER_REMEMBERED`. -/
def remHeader : SpHeader :=
  { success := some true, errors := none, csrf := some "tok-3",
    authLevel := some "USER_REMEMBERED", spHeaderVersion := none }

def remResp : RawResponse :=
  { statusCode := 200, contentType := "application/json",
    body := some { spHeader := some remHeader, spData := none },
    setCookies := [] }

/-- Oracle for which the identify endpoint reports a remembered user. -/
def remOracle : Oracle :=
  { landingHtml := sampleLandingHtml, landingSetCookies := [],
    respond := fun _ => remResp }

/-- Successful envelope carrying a transactions payload. -/
def txnEnv : Envelope :=
  { spHeader := some okHeader, spData := some { transactions := some ["t1", "t2"] } }

def txnResp : RawResponse :=
  { statusCode := 200, contentType := "application/json", body := some txnEnv,
    setCookies := [] }

def txnOracle : Oracle :=
  { landingHtml := sampleLandingHtml, landingSetCookies := [],
    respond := fun _ => txnResp }

/-! Helper lemmas. -/

theorem api_request_trace (o : Oracle) (s : PCState) (method path : String)
    (data : List (String × Option String)) :
    (api_request o s method path data).2.1
      = [NetCall.api (mkRequest s method path data)] := rfl

theorem api_request_state (o : Oracle) (s : PCState) (method path : String)
    (data : List (String × Option String)) :
    (api_request o s method path data).1
      = (api_request_core s (o.respond (mkRequest s method path data))).1 := rfl

/-! Claim theorems. -/

/-- C4: for every `auth_method` outside `{sms, email}`, `login` raises
`ValueError` with an empty network trace, leaving state and cache
untouched. -/
theorem login_rejects_unsupported_auth_method
    (o : Oracle) (s : PCState) (cache : CacheDisk)
    (email password auth_method code : String)
    (h1 : auth_method ≠ "sms") (h2 : auth_method ≠ "email") :
    login o s cache email password auth_method code
      = ⟨s, cache, [], Except.error (PyExc.valueError auth_method)⟩ := by
  unfold login
  rw [if_pos]
  rintro (h | h)
  · exact h1 h
  · exact h2 h

theorem login_rejects_unsupported_auth_method_witness :
    login sOracle s0 CacheDisk.absent "u@x.com" "pw" "carrier-pigeon" "1234"
      = ⟨s0, CacheDisk.absent, [], Except.error (PyExc.valueError "carrier-pigeon")⟩ :=
  login_rejects_unsupported_auth_method sOracle s0 CacheDisk.absent
    "u@x.com" "pw" "carrier-pigeon" "1234" (by decide) (by decide)

/-- C1: on a well-transported envelope with `success = false`, a first error
code of 201 makes `api_request` clear the csrf token and raise the
session-expired exception, while any other first error code raises the
generic envelope `RuntimeError` and leaves the csrf token unchanged. -/
theorem api_request_expiry_classification
    (s : PCState) (resp : RawResponse) (env : Envelope) (h : SpHeader)
    (e : SpError) (es : List SpError)
    (hst : resp.statusCode = 200)
    (hct : isJsonContentType resp.contentType = true)
    (hb : resp.body = some env) (hh : env.spHeader = some h)
    (hs : h.success = some false) (he : h.errors = some (e :: es)) :
    (e.code = some 201 →
      api_request_core s resp
        = ({ cookieMergedState s resp with csrf := none },
           Except.error (PyExc.sessionExpired h))) ∧
    (e.code ≠ some 201 →
      api_request_core s resp
        = (cookieMergedState s resp, Except.error (PyExc.apiError h)) ∧
      (cookieMergedState s resp).csrf = s.csrf) := by
  constructor
  · intro hc
    simp [api_request_core, hst, hct, hb, hh, hs, he, hc]
  · intro hc
    refine ⟨?_, rfl⟩
    simp [api_request_core, hst, hct, hb, hh, hs, he, hc]

theorem api_request_expiry_classification_witness :
    (api_request_core sTok resp201
      = ({ cookieMergedState sTok resp201 with csrf := none },
         Except.error (PyExc.sessionExpired hdr201))) ∧
    (api_request_core sTok resp999
      = (cookieMergedState sTok resp999, Except.error (PyExc.apiError hdr999))) ∧
    (cookieMergedState sTok resp999).csrf = some "tok-0" :=
  ⟨(api_request_expiry_classification sTok resp201
      { spHeader := some hdr201, spData := none } hdr201 { code := some 201 } []
      rfl (by decide) rfl rfl rfl rfl).1 rfl,
   ((api_request_expiry_classification sTok resp999
      { spHeader := some hdr999, spData := none } hdr999 { code := some 999 } []
      rfl (by decide) rfl rfl rfl rfl).2 (by decide)).1,
   rfl⟩

/-- C7 counterexample: the transport-level error raised for a non-JSON
response and the envelope-level error raised for an unsuccessful JSON
envelope are the same Python class (`RuntimeError`), so the transport error
is not a class of error distinguishable from the envelope `ApiError`. -/
theorem api_request_transport_error_counterexample :
    (api_request_core s0 htmlResp).2
      = Except.error (PyExc.transportError 500 "text/html") ∧
    (api_request_core s0 resp999).2 = Except.error (PyExc.apiError hdr999) ∧
    PyExc.cls (PyExc.transportError 500 "text/html")
      = PyExc.cls (PyExc.apiError hdr999) := by
  refine ⟨rfl, rfl, rfl⟩

/-- C7 (amended): for every response whose status is not 2xx or whose
content type is not JSON, `api_request` raises the transport `RuntimeError`
carrying the status and the content-type header, without looking at the body
(the same error is raised for every body); that error is of the same Python
class as the envelope-level error, and only the session-expired exception
has a distinguishable class. -/
theorem api_request_transport_error
    (s : PCState) (resp : RawResponse)
    (h : resp.statusCode < 200 ∨ 299 < resp.statusCode
          ∨ isJsonContentType resp.contentType = false) :
    (api_request_core s resp).2
        = Except.error (PyExc.transportError resp.statusCode resp.contentType) ∧
    (∀ b : Option Envelope,
      (api_request_core s { resp with body := b }).2
        = Except.error (PyExc.transportError resp.statusCode resp.contentType)) ∧
    PyExc.cls (PyExc.transportError resp.statusCode resp.contentType)
        = "RuntimeError" ∧
    (∀ hh : SpHeader, PyExc.cls (PyExc.apiError hh) = "RuntimeError") ∧
    (∀ hh : SpHeader, PyExc.cls (PyExc.sessionExpired hh)
        = "PersonalCapitalSessionExpiredException") := by
  have hP : ¬resp.statusCode = 200 ∨ isJsonContentType resp.contentType = false := by
    rcases h with h | h | h
    · exact Or.inl (by omega)
    · exact Or.inl (by omega)
    · exact Or.inr h
  refine ⟨?_, ?_, rfl, fun hh => rfl, fun hh => rfl⟩
  · simp only [api_request_core]
    simp only [Bool.or_eq_true, decide_eq_true_eq, Bool.not_eq_eq_eq_not, Bool.not_true,
      ne_eq]
    rw [if_pos hP]
  · intro b
    simp only [api_request_core]
    simp only [Bool.or_eq_true, decide_eq_true_eq, Bool.not_eq_eq_eq_not, Bool.not_true,
      ne_eq]
    rw [if_pos hP]

theorem api_request_transport_error_witness :
    (api_request_core s0 htmlResp).2
      = Except.error (PyExc.transportError 500 "text/html") :=
  (api_request_transport_error s0 htmlResp (Or.inr (Or.inl (by decide)))).1

/-- C3 counterexample: a cache record that fails to deserialize makes
`_load_cookies_from_cache` raise (the `pickle.load` error propagates), so
the load does not return nothing in that case. -/
theorem cache_load_unreadable_counterexample :
    load_cookies_from_cache CacheDisk.unreadable
        = Except.error PyExc.pickleError ∧
    load_cookies_from_cache CacheDisk.unreadable ≠ Except.ok none := by
  refine ⟨rfl, by decide⟩

/-- C3 (amended): `_load_cookies_from_cache` returns nothing when the record
is absent or carries a version tag different from the current schema version
(a version-mismatched record is never returned even if otherwise
well-formed), while a record that fails to deserialize raises. -/
theorem cache_load_classification :
    load_cookies_from_cache CacheDisk.absent = Except.ok none ∧
    (∀ r : CachedRecord, r.version ≠ cache_version →
      load_cookies_from_cache (CacheDisk.record r) = Except.ok none) ∧
    (∀ r : CachedRecord, r.version = cache_version →
      load_cookies_from_cache (CacheDisk.record r) = Except.ok (some r.cookies)) ∧
    load_cookies_from_cache CacheDisk.unreadable = Except.error PyExc.pickleError := by
  refine ⟨rfl, fun r hr => ?_, fun r hr => ?_, rfl⟩
  · simp [load_cookies_from_cache, hr]
  · simp [load_cookies_from_cache, hr]

theorem cache_load_classification_witness :
    load_cookies_from_cache (CacheDisk.record ⟨2, [("k", "v")], some "e"⟩)
        = Except.ok none ∧
    load_cookies_from_cache (CacheDisk.record ⟨1, [("k", "v")], some "e"⟩)
        = Except.ok (some [("k", "v")]) :=
  ⟨cache_load_classification.2.1 ⟨2, [("k", "v")], some "e"⟩ (by decide),
   cache_load_classification.2.2.1 ⟨1, [("k", "v")], some "e"⟩ rfl⟩

theorem run_trace_of_api (o : Oracle) (s : PCState) (method path : String)
    (data : List (String × Option String)) (s1 : PCState) (t : List NetCall)
    (r : Except PyExc Envelope)
    (h : api_request o s method path data = (s1, t, r)) :
    t = [NetCall.api (mkRequest s method path data)] := by
  have h2 : (api_request o s method path data).2.1 = t := by rw [h]
  rw [api_request_trace] at h2
  exact h2.symm

/-- C2: `is_logged_in` answers false with no network call whenever no csrf
token is held, answers true exactly when a token is held and the
`get_accounts` probe returns normally, and converts a session-expired
exception from the probe into false instead of propagating it. -/
theorem is_logged_in_contract (o : Oracle) (s : PCState) :
    (s.csrf = none → is_logged_in o s = (s, [], Except.ok false)) ∧
    ((is_logged_in o s).2.2 = Except.ok true ↔
      s.csrf ≠ none ∧ ∃ d, (get_accounts o s).2.2 = Except.ok d) ∧
    (∀ h : SpHeader,
      (get_accounts o s).2.2 = Except.error (PyExc.sessionExpired h) →
        (is_logged_in o s).2.2 = Except.ok false) := by
  rcases hc : s.csrf with _ | tok
  · refine ⟨fun _ => ?_, ?_, fun h hg => ?_⟩
    · unfold is_logged_in
      rw [hc]
    · unfold is_logged_in
      rw [hc]
      simp [hc]
    · unfold is_logged_in
      rw [hc]
  · refine ⟨fun hn => ?_, ?_, fun h hg => ?_⟩
    · simp at hn
    · rcases hg : get_accounts o s with ⟨s1, t, r⟩
      unfold is_logged_in
      rw [hc, hg]
      rcases r with e | d
      · cases e <;> simp [hc]
      · simp [hc]
    · rcases hg2 : get_accounts o s with ⟨s1, t, r⟩
      rw [hg2] at hg
      dsimp only at hg
      subst hg
      unfold is_logged_in
      rw [hc, hg2]

theorem is_logged_in_contract_witness :
    is_logged_in sOracle s0 = (s0, [], Except.ok false) ∧
    (is_logged_in expiredOracle sTok).2.2 = Except.ok false :=
  ⟨(is_logged_in_contract sOracle s0).1 rfl,
   (is_logged_in_contract expiredOracle sTok).2.2 hdr201 rfl⟩

/-- C9: any successfully constructed instance starts with no csrf token and
`lastServerChangeId = -1` regardless of cookie hydration, so `is_logged_in`
is false with no network call, while a data call with the hydrated state can
still succeed against a suitable server. -/
theorem init_state_invariants (useCache : Bool) (disk : CacheDisk) (s : PCState)
    (h : init_personal_capital useCache disk = Except.ok s) :
    s.csrf = none ∧ s.last_server_change_id = -1 ∧
    (∀ o : Oracle, is_logged_in o s = (s, [], Except.ok false)) ∧
    (∃ (o : Oracle) (d : SpData), (get_accounts o s).2.2 = Except.ok d) := by
  unfold init_personal_capital at h
  rcases hl : (if useCache then load_cookies_from_cache disk else Except.ok none)
      with e | cookies
  · rw [hl] at h
    cases h
  · rw [hl] at h
    dsimp only at h
    injection h with h
    subst h
    exact ⟨rfl, rfl, fun o => rfl, ⟨sOracle, ⟨some []⟩, rfl⟩⟩

theorem init_state_invariants_witness :
    s0.csrf = none ∧ s0.last_server_change_id = -1 ∧
    is_logged_in sOracle s0 = (s0, [], Except.ok false) :=
  ⟨(init_state_invariants true CacheDisk.absent s0 rfl).1,
   (init_state_invariants true CacheDisk.absent s0 rfl).2.1,
   (init_state_invariants true CacheDisk.absent s0 rfl).2.2.1 sOracle⟩

theorem get_transactions_trace (o : Oracle) (s : PCState) (a b : String) :
    (get_transactions o s a b).2.1
      = [NetCall.api (mkRequest s "post" "/api/transaction/getUserTransactions"
          [("startDate", some a), ("endDate", some b)])] := by
  unfold get_transactions
  rcases hr : api_request o s "post" "/api/transaction/getUserTransactions"
      [("startDate", some a), ("endDate", some b)] with ⟨s1, t, r⟩
  have ht := run_trace_of_api o s _ _ _ s1 t r hr
  subst ht
  rcases r with e | env
  · rfl
  · rcases env with ⟨hdr, sd⟩
    rcases sd with _ | d
    · rfl
    · rcases d with ⟨txs⟩
      rcases txs with _ | ts
      · rfl
      · rfl

/-- C10: `get_transactions` called without date arguments issues exactly one
request carrying the fixed default window `startDate=2007-01-01`,
`endDate=2030-01-01`, and returns exactly the `transactions` sub-structure
of the envelope's `spData` payload. -/
theorem get_transactions_default_window (o : Oracle) (s : PCState) :
    (get_transactions_default o s).2.1
      = [NetCall.api (mkRequest s "post" "/api/transaction/getUserTransactions"
          [("startDate", some "2007-01-01"), ("endDate", some "2030-01-01")])] ∧
    (∀ (s1 : PCState) (t : List NetCall) (env : Envelope),
      api_request o s "post" "/api/transaction/getUserTransactions"
          [("startDate", some default_start_date), ("endDate", some default_end_date)]
        = (s1, t, Except.ok env) →
      ∀ d : SpData, env.spData = some d →
      ∀ ts : List String, d.transactions = some ts →
        (get_transactions_default o s).2.2 = Except.ok ts) := by
  constructor
  · exact get_transactions_trace o s default_start_date default_end_date
  · intro s1 t env hreq d hd ts hts
    unfold get_transactions_default get_transactions
    rw [hreq]
    dsimp only
    rw [hd]
    dsimp only
    rw [hts]

theorem get_transactions_default_window_witness :
    (get_transactions_default txnOracle s0).2.2 = Except.ok ["t1", "t2"] :=
  (get_transactions_default_window txnOracle s0).2 _ _ txnEnv rfl _ rfl _ rfl

/-- C8 counterexample: on a landing page where the csrf pattern does not
match, `login` fails with `AttributeError` (the crash from calling
`.groups()` on the `None` returned by `re.search`) after only the
landing-page fetch; no dedicated protocol error class exists. -/
theorem login_token_extraction_counterexample :
    (login noTokenOracle s0 CacheDisk.absent "u@x.com" "pw" "sms" "1234").result
        = Except.error PyExc.attributeError ∧
    (login noTokenOracle s0 CacheDisk.absent "u@x.com" "pw" "sms" "1234").trace
        = [NetCall.pageGet] ∧
    PyExc.cls PyExc.attributeError = "AttributeError" := by
  refine ⟨by decide, by decide, rfl⟩

/-- C8 (amended): the first step of direct API login extracts an initial
anti-forgery token from the landing page HTML via the fixed embedded-script
pattern and stores it as the provisional csrf token (it is sent as the
`csrf` form field of the very next request, the identify call); for every
landing page in which the pattern does not match, `login` fails with
`AttributeError` after only the landing-page fetch. -/
theorem login_token_extraction
    (o : Oracle) (s : PCState) (cache : CacheDisk)
    (email password auth_method code : String)
    (hm : auth_method = "sms" ∨ auth_method = "email") :
    (extractCsrf o.landingHtml = none →
      login o s cache email password auth_method code
        = ⟨landingCookieState o s, cache, [NetCall.pageGet],
           Except.error PyExc.attributeError⟩) ∧
    (∀ tok : String, extractCsrf o.landingHtml = some tok →
      ("csrf", some tok) ∈ (mkRequest (loginLandedState o s tok) "post"
          "/api/login/identifyUser" (identifyData email)).data ∧
      ∃ rest, (login o s cache email password auth_method code).trace
        = NetCall.pageGet
            :: NetCall.api (mkRequest (loginLandedState o s tok) "post"
                "/api/login/identifyUser" (identifyData email)) :: rest) := by
  have hval : ¬¬(auth_method = "sms" ∨ auth_method = "email") := not_not_intro hm
  constructor
  · intro hx
    unfold login
    rw [if_neg hval, hx]
  · intro tok hx
    constructor
    · simp [mkRequest, loginLandedState, landingCookieState, identifyData]
    · unfold login
      rw [if_neg hval, hx]
      dsimp only
      split
      · rename_i s3 t3 e heq
        rw [run_trace_of_api o _ _ _ _ s3 t3 _ heq]
        exact ⟨[], rfl⟩
      · rename_i s3 t3 env heq
        rw [run_trace_of_api o _ _ _ _ s3 t3 _ heq]
        split
        · rename_i s6 t6 e heq2
          exact ⟨t6, rfl⟩
        · rename_i s6 t6 u heq2
          split
          · rename_i s7 t7 e heq3
            exact ⟨t6 ++ t7, rfl⟩
          · rename_i s7 t7 env7 heq3
            exact ⟨t6 ++ t7
              ++ (refresh_last_server_change_id o { s7 with email := some email }).2.1, rfl⟩

theorem login_token_extraction_witness :
    ("csrf", some "abc-123")
        ∈ (mkRequest (loginLandedState sOracle s0 "abc-123") "post"
            "/api/login/identifyUser" (identifyData "u@x.com")).data ∧
    ∃ rest, (login sOracle s0 CacheDisk.absent "u@x.com" "pw" "sms" "1234").trace
        = NetCall.pageGet
            :: NetCall.api (mkRequest (loginLandedState sOracle s0 "abc-123") "post"
                "/api/login/identifyUser" (identifyData "u@x.com")) :: rest :=
  (login_token_extraction sOracle s0 CacheDisk.absent "u@x.com" "pw" "sms" "1234"
    (Or.inl rfl)).2 "abc-123" (by decide)

theorem not_challenge_pageGet : isChallengeCall NetCall.pageGet = false := rfl

theorem not_challenge_identify (s : PCState) (method : String)
    (data : List (String × Option String)) :
    isChallengeCall (NetCall.api (mkRequest s method "/api/login/identifyUser" data))
      = false := by
  simp only [isChallengeCall, mkRequest]
  rfl

theorem not_challenge_password (s : PCState) (method : String)
    (data : List (String × Option String)) :
    isChallengeCall (NetCall.api (mkRequest s method
        "/api/credential/authenticatePassword" data)) = false := by
  simp only [isChallengeCall, mkRequest]
  rfl

theorem not_challenge_query (s : PCState) (method : String)
    (data : List (String × Option String)) :
    isChallengeCall (NetCall.api (mkRequest s method "api/login/querySession" data))
      = false := by
  simp only [isChallengeCall, mkRequest]
  rfl

theorem refresh_trace (o : Oracle) (s : PCState) :
    (refresh_last_server_change_id o s).2.1
      = [NetCall.api (mkRequest s "post" "api/login/querySession" [])] := by
  unfold refresh_last_server_change_id
  split
  · rename_i s1 t e heq
    exact run_trace_of_api o _ _ _ _ s1 t _ heq
  · rename_i s1 t env heq
    have ht := run_trace_of_api o _ _ _ _ s1 t _ heq
    split
    · rename_i v hv
      split
      · exact ht
      · exact ht
    · exact ht

theorem challengePhase_trace (o : Oracle) (sD : PCState) (m code : String) :
    ∃ rest, (challengePhase o sD m code).2.1
      = NetCall.api (mkRequest sD "post" (challengePathOf m) (challengeData m)) :: rest := by
  unfold challengePhase
  split
  · rename_i s5 t5 e heq
    rw [run_trace_of_api o _ _ _ _ s5 t5 _ heq]
    exact ⟨[], rfl⟩
  · rename_i s5 t5 env5 heq
    rw [run_trace_of_api o _ _ _ _ s5 t5 _ heq]
    split
    · rename_i s6 t6 e heq2
      exact ⟨t6, rfl⟩
    · rename_i s6 t6 env6 heq2
      exact ⟨t6, rfl⟩

theorem challengePhase_eq_of_ok (o : Oracle) (sD : PCState) (m code : String)
    (s5 : PCState) (t5 : List NetCall) (env5 : Envelope)
    (h5 : challengeStep o sD m = (s5, t5, Except.ok env5))
    (s6 : PCState) (t6 : List NetCall) (env6 : Envelope)
    (h6 : authenticateCodeStep o s5 m code = (s6, t6, Except.ok env6)) :
    challengePhase o sD m code = (s6, t5 ++ t6, Except.ok ()) := by
  unfold challengePhase
  rw [h5]
  dsimp only
  rw [h6]

/-- C5: during `login`, when the identify response header reports
`authLevel USER_REMEMBERED`, no challenge or code-verification endpoint is
called and the request issued right after the identify call is the password
submission; otherwise the challenge request is issued right after the
identify call, and (when both two-factor steps succeed) the code
verification and then the password submission follow it. -/
theorem login_challenge_branching
    (o : Oracle) (s : PCState) (cache : CacheDisk)
    (email password auth_method code tok : String)
    (hm : auth_method = "sms" ∨ auth_method = "email")
    (hx : extractCsrf o.landingHtml = some tok)
    (s3 : PCState) (t3 : List NetCall) (env : Envelope)
    (hid : identifyStep o (loginLandedState o s tok) email
      = (s3, t3, Except.ok env)) :
    (env.spHeader.bind SpHeader.authLevel = some "USER_REMEMBERED" →
      List.filter isChallengeCall
          (login o s cache email password auth_method code).trace = [] ∧
      ∃ rest, (login o s cache email password auth_method code).trace
        = NetCall.pageGet :: t3
            ++ NetCall.api (mkRequest (postIdentifyState s3 env) "post"
                "/api/credential/authenticatePassword" (passwordData password))
              :: rest) ∧
    (env.spHeader.bind SpHeader.authLevel ≠ some "USER_REMEMBERED" →
      (∃ rest, (login o s cache email password auth_method code).trace
        = NetCall.pageGet :: t3
            ++ NetCall.api (mkRequest (postIdentifyState s3 env) "post"
                (challengePathOf auth_method) (challengeData auth_method)) :: rest) ∧
      (∀ (s5 : PCState) (t5 : List NetCall) (env5 : Envelope),
        challengeStep o (postIdentifyState s3 env) auth_method
          = (s5, t5, Except.ok env5) →
        ∀ (s6 : PCState) (t6 : List NetCall) (env6 : Envelope),
          authenticateCodeStep o s5 auth_method code = (s6, t6, Except.ok env6) →
          ∃ rest, (login o s cache email password auth_method code).trace
            = NetCall.pageGet :: t3 ++ t5 ++ t6
                ++ NetCall.api (mkRequest s6 "post"
                    "/api/credential/authenticatePassword" (passwordData password))
                  :: rest)) := by
  have hval : ¬¬(auth_method = "sms" ∨ auth_method = "email") := not_not_intro hm
  have ht3 : t3 = [NetCall.api (mkRequest (loginLandedState o s tok) "post"
      "/api/login/identifyUser" (identifyData email))] :=
    run_trace_of_api o _ _ _ _ s3 t3 _ hid
  subst ht3
  constructor
  · intro hlv
    constructor
    · unfold login
      rw [if_neg hval, hx]
      dsimp only
      rw [hid]
      dsimp only
      rw [if_neg (not_not_intro hlv)]
      dsimp only
      split
      · rename_i s7 t7 e heq3
        rw [run_trace_of_api o _ _ _ _ s7 t7 _ heq3]
        simp [List.filter_cons, not_challenge_pageGet, not_challenge_identify,
          not_challenge_password]
      · rename_i s7 t7 env7 heq3
        rw [run_trace_of_api o _ _ _ _ s7 t7 _ heq3, refresh_trace]
        simp [List.filter_cons, not_challenge_pageGet, not_challenge_identify,
          not_challenge_password, not_challenge_query]
    · unfold login
      rw [if_neg hval, hx]
      dsimp only
      rw [hid]
      dsimp only
      rw [if_neg (not_not_intro hlv)]
      dsimp only
      split
      · rename_i s7 t7 e heq3
        rw [run_trace_of_api o _ _ _ _ s7 t7 _ heq3]
        exact ⟨[], by simp⟩
      · rename_i s7 t7 env7 heq3
        rw [run_trace_of_api o _ _ _ _ s7 t7 _ heq3]
        exact ⟨(refresh_last_server_change_id o
            { s7 with email := some email }).2.1, by simp⟩
  · intro hlv
    constructor
    · obtain ⟨chRest, hchTrace⟩ :=
        challengePhase_trace o (postIdentifyState s3 env) auth_method code
      unfold login
      rw [if_neg hval, hx]
      dsimp only
      rw [hid]
      dsimp only
      rw [if_pos hlv]
      rcases hph : challengePhase o (postIdentifyState s3 env) auth_method code
          with ⟨s6p, t6p, rph⟩
      rw [hph] at hchTrace
      dsimp only at hchTrace
      try rw [hph]
      rcases rph with e | u
      · exact ⟨chRest, by simp [hchTrace]⟩
      · dsimp only
        split
        · rename_i s7 t7 e heq3
          rw [run_trace_of_api o _ _ _ _ s7 t7 _ heq3]
          exact ⟨chRest ++ [NetCall.api (mkRequest s6p "post"
              "/api/credential/authenticatePassword" (passwordData password))],
            by simp [hchTrace]⟩
        · rename_i s7 t7 env7 heq3
          rw [run_trace_of_api o _ _ _ _ s7 t7 _ heq3, refresh_trace]
          exact ⟨chRest ++ [NetCall.api (mkRequest s6p "post"
                "/api/credential/authenticatePassword" (passwordData password))]
              ++ [NetCall.api (mkRequest { s7 with email := some email } "post"
                "api/login/querySession" [])],
            by simp [hchTrace]⟩
    · intro s5 t5 env5 h5 s6 t6 env6 h6
      unfold login
      rw [if_neg hval, hx]
      dsimp only
      rw [hid]
      dsimp only
      rw [if_pos hlv]
      rw [challengePhase_eq_of_ok o _ _ _ _ _ _ h5 _ _ _ h6]
      dsimp only
      split
      · rename_i s7 t7 e heq3
        rw [run_trace_of_api o _ _ _ _ s7 t7 _ heq3]
        exact ⟨[], by simp⟩
      · rename_i s7 t7 env7 heq3
        rw [run_trace_of_api o _ _ _ _ s7 t7 _ heq3, refresh_trace]
        exact ⟨[NetCall.api (mkRequest { s7 with email := some email } "post"
            "api/login/querySession" [])], by simp⟩

theorem login_challenge_branching_witness :
    List.filter isChallengeCall
        (login remOracle s0 CacheDisk.absent "u@x.com" "pw" "sms" "1234").trace
      = [] :=
  ((login_challenge_branching remOracle s0 CacheDisk.absent "u@x.com" "pw" "sms"
      "1234" "abc-123" (Or.inl rfl) (by decide) _ _ _ rfl).1 rfl).1

theorem api_request_core_preserves (s : PCState) (resp : RawResponse) :
    ((api_request_core s resp).1).email = s.email ∧
    ((api_request_core s resp).1).use_cookies_cache = s.use_cookies_cache := by
  unfold api_request_core
  repeat' split
  all_goals exact ⟨rfl, rfl⟩

theorem api_request_core_ok (s : PCState) (resp : RawResponse) (env : Envelope)
    (h : (api_request_core s resp).2 = Except.ok env) :
    api_request_core s resp = (cookieMergedState s resp, Except.ok env) := by
  revert h
  unfold api_request_core
  repeat' split
  all_goals intro h
  all_goals simp at h
  subst h
  rfl

theorem api_request_fst_preserves (o : Oracle) (s : PCState) (method path : String)
    (data : List (String × Option String)) (s1 : PCState) (t : List NetCall)
    (r : Except PyExc Envelope)
    (h : api_request o s method path data = (s1, t, r)) :
    s1.email = s.email ∧ s1.use_cookies_cache = s.use_cookies_cache := by
  have h1 : (api_request o s method path data).1 = s1 := by rw [h]
  rw [api_request_state] at h1
  rw [← h1]
  exact api_request_core_preserves s (o.respond (mkRequest s method path data))

theorem api_request_ok_state (o : Oracle) (s : PCState) (method path : String)
    (data : List (String × Option String)) (s1 : PCState) (t : List NetCall)
    (env : Envelope)
    (h : api_request o s method path data = (s1, t, Except.ok env)) :
    s1 = cookieMergedState s (o.respond (mkRequest s method path data)) := by
  have h1 : (api_request o s method path data).1 = s1 := by rw [h]
  have h2 : (api_request o s method path data).2.2 = Except.ok env := by rw [h]
  have h3 := api_request_core_ok s (o.respond (mkRequest s method path data)) env h2
  rw [api_request_state, h3] at h1
  exact h1.symm

theorem api_request_ok_csrf (o : Oracle) (s : PCState) (method path : String)
    (data : List (String × Option String)) (s1 : PCState) (t : List NetCall)
    (env : Envelope)
    (h : api_request o s method path data = (s1, t, Except.ok env)) :
    s1.csrf = s.csrf := by
  rw [api_request_ok_state o s method path data s1 t env h]
  rfl

theorem challengePhase_preserves (o : Oracle) (sD : PCState) (m code : String)
    (s6 : PCState) (t6 : List NetCall) (r : Except PyExc Unit)
    (h : challengePhase o sD m code = (s6, t6, r)) :
    s6.email = sD.email ∧ s6.use_cookies_cache = sD.use_cookies_cache := by
  revert h
  unfold challengePhase
  split
  · rename_i s5 t5 e heq
    intro h
    have h1 : s5 = s6 := congrArg (fun x : Run Unit => x.1) h
    rw [← h1]
    exact api_request_fst_preserves o sD _ _ _ s5 t5 _ heq
  · rename_i s5 t5 env5 heq
    split
    · rename_i s6a t6a e heq2
      intro h
      have h1 : s6a = s6 := congrArg (fun x : Run Unit => x.1) h
      rw [← h1]
      have p1 := api_request_fst_preserves o sD _ _ _ s5 t5 _ heq
      have p2 := api_request_fst_preserves o s5 _ _ _ s6a t6a _ heq2
      exact ⟨p2.1.trans p1.1, p2.2.trans p1.2⟩
    · rename_i s6a t6a env6 heq2
      intro h
      have h1 : s6a = s6 := congrArg (fun x : Run Unit => x.1) h
      rw [← h1]
      have p1 := api_request_fst_preserves o sD _ _ _ s5 t5 _ heq
      have p2 := api_request_fst_preserves o s5 _ _ _ s6a t6a _ heq2
      exact ⟨p2.1.trans p1.1, p2.2.trans p1.2⟩

theorem challengePhase_ok_csrf (o : Oracle) (sD : PCState) (m code : String)
    (s6 : PCState) (t6 : List NetCall)
    (h : challengePhase o sD m code = (s6, t6, Except.ok ())) :
    s6.csrf = sD.csrf := by
  revert h
  unfold challengePhase
  split
  · rename_i s5 t5 e heq
    intro h
    have h1 : (Except.error e : Except PyExc Unit) = Except.ok () :=
      congrArg (fun x : Run Unit => x.2.2) h
    cases h1
  · rename_i s5 t5 env5 heq
    split
    · rename_i s6a t6a e heq2
      intro h
      have h1 : (Except.error e : Except PyExc Unit) = Except.ok () :=
        congrArg (fun x : Run Unit => x.2.2) h
      cases h1
    · rename_i s6a t6a env6 heq2
      intro h
      have h1 : s6a = s6 := congrArg (fun x : Run Unit => x.1) h
      rw [← h1]
      have p1 := api_request_ok_csrf o sD _ _ _ s5 t5 _ heq
      have p2 := api_request_ok_csrf o s5 _ _ _ s6a t6a _ heq2
      exact p2.trans p1

theorem refresh_ok_state (o : Oracle) (s : PCState) (s9 : PCState)
    (t9 : List NetCall)
    (h : refresh_last_server_change_id o s = (s9, t9, Except.ok ())) :
    s9.email = s.email ∧ s9.use_cookies_cache = s.use_cookies_cache ∧
    s9.csrf = s.csrf := by
  revert h
  unfold refresh_last_server_change_id
  split
  · rename_i s1 t e heq
    intro h
    have h1 : (Except.error e : Except PyExc Unit) = Except.ok () :=
      congrArg (fun x : Run Unit => x.2.2) h
    cases h1
  · rename_i s1 t env heq
    have hst := api_request_ok_state o s _ _ _ s1 t env heq
    split
    · rename_i v hv
      split
      · intro h
        have h1 : { s1 with last_server_change_id := v } = s9 :=
          congrArg (fun x : Run Unit => x.1) h
        rw [← h1, hst]
        exact ⟨rfl, rfl, rfl⟩
      · intro h
        have h1 : s1 = s9 := congrArg (fun x : Run Unit => x.1) h
        rw [← h1, hst]
        exact ⟨rfl, rfl, rfl⟩
    · intro h
      have h1 : s1 = s9 := congrArg (fun x : Run Unit => x.1) h
      rw [← h1, hst]
      exact ⟨rfl, rfl, rfl⟩

/-- C6 counterexample: a login in which every call succeeds but the identify
response header carries no csrf value returns successfully while the
in-memory csrf token is unset, so a successful `login` does not always leave
the csrf token set. -/
theorem login_success_counterexample :
    (login noCsrfOracle s0 CacheDisk.absent "u@x.com" "pw" "sms" "1234").result
        = Except.ok () ∧
    (login noCsrfOracle s0 CacheDisk.absent "u@x.com" "pw" "sms" "1234").state.csrf
        = none :=
  ⟨by decide, by decide⟩

/-- C6 (amended): whenever `login` returns successfully, the identity email
is recorded, and if cookie caching is enabled the Session Store holds a
record under the current version tag whose cookie set `load` reads back
verbatim (the session cookies at save time); the csrf token is set to
exactly the value carried by the identify response header, which may be
absent. -/
theorem login_success_postcondition
    (o : Oracle) (s : PCState) (cache : CacheDisk)
    (email password auth_method code : String)
    (hok : (login o s cache email password auth_method code).result
        = Except.ok ()) :
    (login o s cache email password auth_method code).state.email = some email ∧
    (s.use_cookies_cache = true →
      ∃ cs, (login o s cache email password auth_method code).cache
          = CacheDisk.record ⟨cache_version, cs, some email⟩ ∧
        load_cookies_from_cache (login o s cache email password auth_method code).cache
          = Except.ok (some cs)) ∧
    (∃ tok s3 t3 env,
      extractCsrf o.landingHtml = some tok ∧
      identifyStep o (loginLandedState o s tok) email = (s3, t3, Except.ok env) ∧
      (login o s cache email password auth_method code).state.csrf
        = env.spHeader.bind SpHeader.csrf) := by
  by_cases hval : auth_method = "sms" ∨ auth_method = "email"
  case neg =>
    unfold login at hok
    rw [if_pos hval] at hok
    simp at hok
  case pos =>
  have hvv := not_not_intro hval
  rcases hx : extractCsrf o.landingHtml with _ | tok
  · unfold login at hok
    rw [if_neg hvv, hx] at hok
    simp at hok
  · unfold login at hok
    rw [if_neg hvv, hx] at hok
    dsimp only at hok
    split at hok
    · rename_i s3 t3 e heqId
      simp at hok
    · rename_i s3 t3 env heqId
      split at hok
      · rename_i s6 t6 e heqCh
        simp at hok
      · rename_i s6 t6 u heqCh
        split at hok
        · rename_i s7 t7 e heqPw
          simp at hok
        · rename_i s7 t7 env7 heqPw
          dsimp only at hok
          rcases hq : refresh_last_server_change_id o { s7 with email := some email }
              with ⟨s9, t9, r9⟩
          rw [hq] at hok
          dsimp only at hok
          subst hok
          cases u
          have hlogin : login o s cache email password auth_method code
              = ⟨s9,
                 (if s7.use_cookies_cache = true
                    then cache_cookies { s7 with email := some email } else cache),
                 NetCall.pageGet :: t3 ++ t6 ++ t7 ++ t9,
                 Except.ok ()⟩ := by
            unfold login
            rw [if_neg hvv, hx]
            dsimp only
            rw [heqId]
            dsimp only
            rw [heqCh]
            dsimp only
            rw [heqPw]
            dsimp only
            rw [hq]
          have hch6 : s6.email = s3.email ∧
              s6.use_cookies_cache = s3.use_cookies_cache ∧
              s6.csrf = env.spHeader.bind SpHeader.csrf := by
            by_cases hrem :
                env.spHeader.bind SpHeader.authLevel ≠ some "USER_REMEMBERED"
            · rw [if_pos hrem] at heqCh
              have p := challengePhase_preserves o (postIdentifyState s3 env)
                auth_method code s6 t6 _ heqCh
              have pc := challengePhase_ok_csrf o (postIdentifyState s3 env)
                auth_method code s6 t6 heqCh
              exact ⟨p.1, p.2, pc⟩
            · rw [if_neg hrem] at heqCh
              have h1 : postIdentifyState s3 env = s6 :=
                congrArg (fun x : Run Unit => x.1) heqCh
              rw [← h1]
              exact ⟨rfl, rfl, rfl⟩
          have p7 := api_request_fst_preserves o s6 _ _ _ s7 t7 _ heqPw
          have c7 := api_request_ok_csrf o s6 _ _ _ s7 t7 _ heqPw
          have p3 := api_request_fst_preserves o (loginLandedState o s tok)
            _ _ _ s3 t3 _ heqId
          have refq := refresh_ok_state o { s7 with email := some email } s9 t9 hq
          rw [hlogin]
          refine ⟨?_, fun hcache => ?_, tok, s3, t3, env, rfl, heqId, ?_⟩
          · simpa using refq.1
          · have hflag : s7.use_cookies_cache = true := by
              rw [p7.2, hch6.2.1]
              rw [show s3.use_cookies_cache = s.use_cookies_cache from p3.2]
              exact hcache
            refine ⟨s7.cookies, ?_, ?_⟩
            · dsimp only
              rw [if_pos hflag]
              rfl
            · dsimp only
              rw [if_pos hflag]
              rfl
          · dsimp only
            rw [refq.2.2]
            rw [show ({ s7 with email := some email } : PCState).csrf = s7.csrf from rfl]
            rw [c7, hch6.2.2]

theorem login_success_postcondition_witness :
    (login sOracle s0 CacheDisk.absent "u@x.com" "pw" "sms" "1234").state.email
        = some "u@x.com" ∧
    ∃ cs, (login sOracle s0 CacheDisk.absent "u@x.com" "pw" "sms" "1234").cache
        = CacheDisk.record ⟨cache_version, cs, some "u@x.com"⟩ ∧
      load_cookies_from_cache
          (login sOracle s0 CacheDisk.absent "u@x.com" "pw" "sms" "1234").cache
        = Except.ok (some cs) :=
  ⟨(login_success_postcondition sOracle s0 CacheDisk.absent "u@x.com" "pw" "sms"
      "1234" (by decide)).1,
   (login_success_postcondition sOracle s0 CacheDisk.absent "u@x.com" "pw" "sms"
      "1234" (by decide)).2.1 rfl⟩
